import Mathlib

/-!
Verification development for a WhatsApp chat-relay bot
(summary engine `utils/summarizer.py`, rate limiter `utils/rate_limiter.py`,
message pipeline `handlers/message.py`, notifier `handlers/notification.py`).

The Python modules are shallowly embedded here:
* the MongoDB collection `conversation_summaries` becomes a `Store`
  (a map from user id to an optional record);
* the Groq LLM call `get_llm_response` becomes an oracle
  `llm : String → Except String String` (`Except.error e` models a raised
  exception whose `str(e)` is `e`);
* the SMTP notifier becomes an oracle `notify : String → String → Bool`
  whose outcome is recorded but, as in the source (`send_email_alert`
  swallows every exception), never influences control flow;
* `time.time()` becomes an explicit `now : Nat` parameter, and the
  rate limiter's timestamps become `Nat`s (with truncated subtraction
  `now - t < 3600` deciding eviction exactly as the Python float
  comparison does, including for timestamps in the future).
-/

/-! ## String helpers (embedding of Python `str` operations) -/

/-- Embedding of Python `str.strip()` on the whitespace the bot ever sees:
drop whitespace characters from both ends. -/
def pyStrip (s : String) : String :=
  ⟨((s.data.dropWhile Char.isWhitespace).reverse.dropWhile Char.isWhitespace).reverse⟩

/-- Embedding of Python `str.lower()`. -/
def toLowerStr (s : String) : String :=
  ⟨s.data.map Char.toLower⟩

/-- `startsWithChars pat cs` holds when `pat` occurs at the head of `cs`. -/
def startsWithChars : List Char → List Char → Bool
  | [], _ => true
  | _ :: _, [] => false
  | p :: ps, c :: cs => p == c && startsWithChars ps cs

/-- `hasSubChars pat cs`: `pat` occurs contiguously somewhere in `cs`
(the semantics of Python `pat in cs`). -/
def hasSubChars (pat : List Char) : List Char → Bool
  | [] => pat.isEmpty
  | c :: cs => startsWithChars pat (c :: cs) || hasSubChars pat cs

/-- Python substring containment `pat in s`. -/
def hasSubStr (pat s : String) : Bool :=
  hasSubChars pat.data s.data

/-! ## Summary engine: `utils/summarizer.py` -/

/-- `UPDATE_THRESHOLD` from `utils/summarizer.py`. -/
def UPDATE_THRESHOLD : Nat := 3

/-- One document of the `conversation_summaries` collection
(the `user_id` key itself lives in the `Store` map). -/
structure Rec where
  summary : String
  unsummarized_count : Nat
  buffer : String
  last_updated : Nat
deriving DecidableEq, Repr

/-- The `conversation_summaries` collection, keyed by user id. -/
def Store : Type := String → Option Rec

/-- Effect of `collection.update_one` (or `insert_one` followed by
`update_one`) keyed on `user_id`: the final document for that user. -/
def store_set (store : Store) (user_id : String) (r : Rec) : Store :=
  fun u => if u = user_id then some r else store u

/-- `find_one` plus the lazy-default creation of `update_summary`
(lines 45-54 of `utils/summarizer.py`): the record the rest of the call
works on. -/
def load_record (store : Store) (user_id : String) : Rec :=
  match store user_id with
  | some r => r
  | none => { summary := "", unsummarized_count := 0, buffer := "", last_updated := 0 }

/-- The compaction prompt built in `update_summary` (lines 77-84). -/
def summary_prompt (current_summary updated_buffer : String) : String :=
  "You are tasked with summarizing the conversation between a user and a bot. "
    ++ "Below is the current summary and the new interactions since the last summary update. "
    ++ "Generate an updated, concise summary that captures all key points and changes in context.\n"
    ++ "Current Summary: " ++ current_summary ++ "\n"
    ++ "New Interactions: " ++ updated_buffer ++ "\n"
    ++ "Output only the new summary text."

/-- Outcome of everything `update_summary` does after `find_one`:
the document written back by `update_one`, the returned summary, and the
number of LLM calls made. -/
structure CommitResult where
  written : Rec
  ret : String
  llmCalls : Nat
deriving Repr

/-- Lines 56-102 of `update_summary`: append the role-tagged entry, bump
the count for User turns, compact when the count reaches
`UPDATE_THRESHOLD` (on LLM failure the `$set` still carries the updated
buffer and count, only `summary` is left out), and return the summary. -/
def summary_commit (llm : String → Except String String) (now : Nat)
    (record : Rec) (new_message role : String) : CommitResult :=
  let new_entry := role ++ ": " ++ new_message ++ "\n"
  let updated_buffer := record.buffer ++ new_entry
  let cnt := if role = "User" then record.unsummarized_count + 1 else record.unsummarized_count
  if cnt ≥ UPDATE_THRESHOLD then
    match llm (summary_prompt record.summary updated_buffer) with
    | Except.ok new_summary =>
        { written := { summary := new_summary, unsummarized_count := 0, buffer := "",
                       last_updated := now },
          ret := new_summary, llmCalls := 1 }
    | Except.error _ =>
        { written := { summary := record.summary, unsummarized_count := cnt,
                       buffer := updated_buffer, last_updated := now },
          ret := record.summary, llmCalls := 1 }
  else
    { written := { summary := record.summary, unsummarized_count := cnt,
                   buffer := updated_buffer, last_updated := now },
      ret := record.summary, llmCalls := 0 }

/-- Result of one `update_summary` call: the store after `update_one`,
the returned summary, and the number of LLM calls made. -/
structure SummaryResult where
  store : Store
  ret : String
  llmCalls : Nat

/-- `update_summary` from `utils/summarizer.py`: load (or lazily create)
the record, then commit. -/
def update_summary (llm : String → Except String String) (now : Nat)
    (store : Store) (user_id new_message role : String) : SummaryResult :=
  let record := load_record store user_id
  let c := summary_commit llm now record new_message role
  { store := store_set store user_id c.written, ret := c.ret, llmCalls := c.llmCalls }

/-! Concrete fixtures used by witnesses and counterexamples. -/

/-- An LLM oracle that always succeeds with a fixed summary. -/
def llmOk : String → Except String String := fun _ => Except.ok "S-NEW"

/-- An LLM oracle that always raises. -/
def llmFail : String → Except String String := fun _ => Except.error "boom"

/-- Empty collection. -/
def emptyStore : Store := fun _ => none

/-- A store holding one user `"u"` sitting one User turn below the
compaction threshold. -/
def storeNearThreshold : Store :=
  fun u => if u = "u" then
    some { summary := "S", unsummarized_count := 2, buffer := "User: x\n", last_updated := 0 }
  else none

example :
    (update_summary llmOk 5 storeNearThreshold "u" "hi" "User").store "u"
      = some { summary := "S-NEW", unsummarized_count := 0, buffer := "", last_updated := 5 } := by
  decide

example :
    (update_summary llmFail 5 storeNearThreshold "u" "hi" "User").store "u"
      = some { summary := "S", unsummarized_count := 3, buffer := "User: x\nUser: hi\n",
               last_updated := 5 } := by
  decide

/-! ## Rate limiter: `utils/rate_limiter.py`

The global dict `user_message_timestamps` maps each user id to a list of
timestamps; `is_rate_limited` reads and writes only the entry of its
`user_id`, so the state we model is that one per-user list. -/

/-- `DEFAULT_RATE_LIMIT_PER_HOUR` from `config/settings.py`
(default value of the environment variable). -/
def DEFAULT_RATE_LIMIT_PER_HOUR : Nat := 30

/-- `is_rate_limited` from `utils/rate_limiter.py`, acting on the calling
user's timestamp list: evict entries an hour old or older, then either
reject (returning the evicted list unchanged) or record `current_time`
and admit.  First component: the returned `Bool` (`true` = rate
limited); second: the list stored back into the dict. -/
def is_rate_limited (limit : Nat) (current_time : Nat) (timestamps : List Nat) :
    Bool × List Nat :=
  let ts := timestamps.filter (fun t => decide (current_time - t < 3600))
  if ts.length ≥ limit then (true, ts)
  else (false, ts ++ [current_time])

/-- Run `is_rate_limited` once per entry of `times`, threading the stored
list; returns the list of results and the final stored list. -/
def rl_run (limit : Nat) (times : List Nat) (timestamps : List Nat) :
    List Bool × List Nat :=
  match times with
  | [] => ([], timestamps)
  | t :: rest =>
      let step := is_rate_limited limit t timestamps
      let tail := rl_run limit rest step.2
      (step.1 :: tail.1, tail.2)

example : rl_run 2 [10, 20, 30] [] = ([false, false, true], [10, 20]) := by decide

example : is_rate_limited 2 5000 [10, 20] = (false, [5000]) := by decide

/-! ## Message pipeline: `handlers/message.py` -/

/-- `preprocess_message` from `handlers/message.py`: `None` becomes the
empty string, otherwise strip surrounding whitespace. -/
def preprocess_message (message_text : Option String) : String :=
  match message_text with
  | none => ""
  | some s => pyStrip s

/-- The media keyword list of `check_media_request`. -/
def media_keywords : List String := ["video", "photo", "voice"]

/-- `check_media_request` from `handlers/message.py`: case-insensitive
substring match against the keyword set. -/
def check_media_request (message_text : String) : Bool :=
  media_keywords.any (fun keyword => hasSubStr keyword (toLowerStr message_text))

example : check_media_request "send me a PHOTO please" = true := by decide

example : check_media_request "hello there" = false := by decide

/-- The fallback reply returned for null or blank input. -/
def fallback_reply : String := "I didn\x27t catch that. Could you please repeat?"

/-- The reply prompt built in `process_message` (lines 97-105). -/
def reply_prompt (current_summary processed_text : String) : String :=
  "You are engaged in a playful conversation with the user. "
    ++ "Use the following conversation context to generate a natural and engaging reply.\n\n"
    ++ "Conversation Summary:\n" ++ current_summary ++ "\n\n"
    ++ "User\x27s Message:\n" ++ processed_text ++ "\n\n"
    ++ "Respond naturally while maintaining the tone of the conversation."

/-- Observable side effects of one `process_message` call:
`notifications` records each `send_email_alert` attempt as
(subject, body, delivery outcome) — the outcome is logged by the source
and never examined; `llmCalls` counts `get_llm_response` invocations
(compaction and reply generation alike); `summaryCalls` counts
`update_summary` invocations, through which every storage operation of
the pipeline goes. -/
structure Effects where
  notifications : List (String × String × Bool)
  llmCalls : Nat
  summaryCalls : Nat
deriving DecidableEq, Repr

/-- Result of one `process_message` call: the reply (`Except.error e`
models the re-raised generation failure), the store afterwards, and the
recorded side effects. -/
structure ProcResult where
  reply : Except String String
  store : Store
  eff : Effects

/-- `process_message` from `handlers/message.py`. -/
def process_message (llm : String → Except String String)
    (notify : String → String → Bool) (now : Nat) (store : Store)
    (message_text : Option String) (user_id : String) : ProcResult :=
  match message_text with
  | none =>
      { reply := Except.ok fallback_reply, store := store,
        eff := { notifications := [], llmCalls := 0, summaryCalls := 0 } }
  | some text =>
      let processed_text := preprocess_message (some text)
      if processed_text = "" then
        { reply := Except.ok fallback_reply, store := store,
          eff := { notifications := [], llmCalls := 0, summaryCalls := 0 } }
      else
        let notifs0 : List (String × String × Bool) :=
          if check_media_request processed_text then
            let subject := "Media Request Detected"
            let alert_message := "User " ++ user_id ++ " requested media: " ++ processed_text
            [(subject, alert_message, notify subject alert_message)]
          else []
        let r1 := update_summary llm now store user_id processed_text "User"
        let prompt := reply_prompt r1.ret processed_text
        match llm prompt with
        | Except.error e =>
            let subject := "LLM API Failure"
            let error_message :=
              "Error for user " ++ user_id ++ " with prompt: " ++ prompt ++ "\nError: " ++ e
            { reply := Except.error e, store := r1.store,
              eff := { notifications := notifs0 ++ [(subject, error_message, notify subject error_message)],
                       llmCalls := r1.llmCalls + 1, summaryCalls := 1 } }
        | Except.ok response =>
            let r2 := update_summary llm now r1.store user_id response "Bot"
            { reply := Except.ok response, store := r2.store,
              eff := { notifications := notifs0,
                       llmCalls := r1.llmCalls + 1 + r2.llmCalls, summaryCalls := 2 } }

/-- A notifier that always delivers. -/
def notifyOk : String → String → Bool := fun _ _ => true

/-- A notifier that always fails (the failure is swallowed by
`send_email_alert`). -/
def notifyFail : String → String → Bool := fun _ _ => false

example :
    (process_message llmOk notifyOk 0 emptyStore (some "hello") "u").reply
      = Except.ok "S-NEW" := by rfl

example :
    (process_message llmOk notifyOk 0 emptyStore (some "  ") "u").reply
      = Except.ok fallback_reply := by rfl

/-! ## Summary-engine claims -/

/-- Shared helper: a list is a prefix of itself followed by anything. -/
theorem startsWithChars_append (xs ys : List Char) :
    startsWithChars xs (xs ++ ys) = true := by
  induction xs with
  | nil => rfl
  | cons a as ih => simp [startsWithChars, ih]

/-- C1: for a user stored one User turn below the compaction threshold,
a User-role `update_summary` makes exactly one generation call, and when
that call returns `s` the persisted record becomes
`summary = s`, `buffer = ""`, `unsummarized_count = 0`, and `s` is
returned. -/
theorem C1_threshold_compaction_success
    (llm : String → Except String String) (now : Nat) (store : Store)
    (user_id new_message s : String) (r : Rec)
    (hrec : store user_id = some r)
    (hcnt : r.unsummarized_count = UPDATE_THRESHOLD - 1)
    (hllm : llm (summary_prompt r.summary
        (r.buffer ++ ("User" ++ ": " ++ new_message ++ "\n"))) = Except.ok s) :
    (update_summary llm now store user_id new_message "User").llmCalls = 1 ∧
    (update_summary llm now store user_id new_message "User").store user_id
      = some { summary := s, unsummarized_count := 0, buffer := "", last_updated := now } ∧
    (update_summary llm now store user_id new_message "User").ret = s := by
  unfold update_summary load_record summary_commit store_set
  rw [hrec]
  simp only [hcnt, UPDATE_THRESHOLD]
  norm_num
  rw [hllm]
  simp

/-- Witness for C1 at a concrete input. -/
theorem C1_threshold_compaction_witness :
    (update_summary llmOk 5 storeNearThreshold "u" "hi" "User").llmCalls = 1 ∧
    (update_summary llmOk 5 storeNearThreshold "u" "hi" "User").store "u"
      = some { summary := "S-NEW", unsummarized_count := 0, buffer := "", last_updated := 5 } ∧
    (update_summary llmOk 5 storeNearThreshold "u" "hi" "User").ret = "S-NEW" :=
  C1_threshold_compaction_success llmOk 5 storeNearThreshold "u" "hi" "S-NEW"
    { summary := "S", unsummarized_count := 2, buffer := "User: x\n", last_updated := 0 }
    (by decide) (by decide) rfl

/-- C2 counterexample: with user `"u"` stored at
`summary = "S"`, `unsummarized_count = 2`, `buffer = "User: x\n"` and a
failing LLM, the User-role call `update_summary "u" "hi"` persists
buffer `"User: x\nUser: hi\n"` and count `3`: storage is NOT left at its
pre-call values, refuting the claim. -/
theorem C2_counterexample :
    ((update_summary llmFail 5 storeNearThreshold "u" "hi" "User").store "u").map Rec.buffer
        ≠ some "User: x\n" ∧
    ((update_summary llmFail 5 storeNearThreshold "u" "hi" "User").store "u").map
        Rec.unsummarized_count ≠ some 2 ∧
    (update_summary llmFail 5 storeNearThreshold "u" "hi" "User").store "u"
      = some { summary := "S", unsummarized_count := 3, buffer := "User: x\nUser: hi\n",
               last_updated := 5 } := by
  decide

/-- C2 (amended): if the generation call during compaction raises, the
persisted summary and the returned value both equal the pre-call
summary, while the persisted buffer is the pre-call buffer extended with
the newly appended role-tagged entry and the persisted
`unsummarized_count` is the incremented count: the append itself is
persisted; only the compaction effects are discarded. -/
theorem C2_amended_failure_persists_append
    (llm : String → Except String String) (now : Nat) (store : Store)
    (user_id new_message role e : String) (r : Rec)
    (hrec : store user_id = some r)
    (hth : (if role = "User" then r.unsummarized_count + 1 else r.unsummarized_count)
        ≥ UPDATE_THRESHOLD)
    (herr : llm (summary_prompt r.summary
        (r.buffer ++ (role ++ ": " ++ new_message ++ "\n"))) = Except.error e) :
    (update_summary llm now store user_id new_message role).store user_id
      = some { summary := r.summary,
               unsummarized_count :=
                 if role = "User" then r.unsummarized_count + 1 else r.unsummarized_count,
               buffer := r.buffer ++ (role ++ ": " ++ new_message ++ "\n"),
               last_updated := now } ∧
    (update_summary llm now store user_id new_message role).ret = r.summary := by
  unfold update_summary load_record summary_commit store_set
  rw [hrec]
  simp only [if_pos hth]
  rw [herr]
  simp

/-- Witness for the amended C2 at a concrete input. -/
theorem C2_amended_failure_witness :
    (update_summary llmFail 5 storeNearThreshold "u" "hi" "User").store "u"
      = some { summary := "S", unsummarized_count := 3,
               buffer := "User: x\n" ++ ("User" ++ ": " ++ "hi" ++ "\n"), last_updated := 5 } ∧
    (update_summary llmFail 5 storeNearThreshold "u" "hi" "User").ret = "S" := by
  have h := C2_amended_failure_persists_append llmFail 5 storeNearThreshold "u" "hi" "User"
    "boom" { summary := "S", unsummarized_count := 2, buffer := "User: x\n", last_updated := 0 }
    (by decide) (by decide) rfl
  simpa using h

/-- C3: if the generation call during compaction raises, `update_summary`
still returns (a total result; nothing is propagated): it returns the
pre-call summary, the persisted summary is unchanged, and the persisted
buffer is the pre-call buffer followed by the new entry, so every
previously pending turn survives verbatim as a prefix. -/
theorem C3_compaction_failure_preserves_context
    (llm : String → Except String String) (now : Nat) (store : Store)
    (user_id new_message role e : String) (r : Rec)
    (hrec : store user_id = some r)
    (hth : (if role = "User" then r.unsummarized_count + 1 else r.unsummarized_count)
        ≥ UPDATE_THRESHOLD)
    (herr : llm (summary_prompt r.summary
        (r.buffer ++ (role ++ ": " ++ new_message ++ "\n"))) = Except.error e) :
    (update_summary llm now store user_id new_message role).ret = r.summary ∧
    ((update_summary llm now store user_id new_message role).store user_id).map Rec.summary
      = some r.summary ∧
    ((update_summary llm now store user_id new_message role).store user_id).map Rec.buffer
      = some (r.buffer ++ (role ++ ": " ++ new_message ++ "\n")) ∧
    startsWithChars r.buffer.data
      ((r.buffer ++ (role ++ ": " ++ new_message ++ "\n")).data) = true := by
  refine ⟨?_, ?_, ?_, ?_⟩
  case _ =>
    unfold update_summary load_record summary_commit
    rw [hrec]
    simp only [if_pos hth]
    rw [herr]
  case _ =>
    unfold update_summary load_record summary_commit store_set
    rw [hrec]
    simp only [if_pos hth]
    rw [herr]
    simp
  case _ =>
    unfold update_summary load_record summary_commit store_set
    rw [hrec]
    simp only [if_pos hth]
    rw [herr]
    simp
  case _ =>
    rw [show (r.buffer ++ (role ++ ": " ++ new_message ++ "\n")).data
          = r.buffer.data ++ (role ++ ": " ++ new_message ++ "\n").data from rfl]
    exact startsWithChars_append _ _

/-- Witness for C3 at a concrete input. -/
theorem C3_compaction_failure_witness :
    (update_summary llmFail 5 storeNearThreshold "u" "hi" "User").ret = "S" ∧
    ((update_summary llmFail 5 storeNearThreshold "u" "hi" "User").store "u").map Rec.summary
      = some "S" ∧
    ((update_summary llmFail 5 storeNearThreshold "u" "hi" "User").store "u").map Rec.buffer
      = some ("User: x\n" ++ ("User" ++ ": " ++ "hi" ++ "\n")) ∧
    startsWithChars ("User: x\n" : String).data
      (("User: x\n" ++ ("User" ++ ": " ++ "hi" ++ "\n") : String).data) = true := by
  have h := C3_compaction_failure_preserves_context llmFail 5 storeNearThreshold "u" "hi"
    "User" "boom"
    { summary := "S", unsummarized_count := 2, buffer := "User: x\n", last_updated := 0 }
    (by decide) (by decide) rfl
  simpa using h

/-- C4 counterexample: with user `"u"` stored at count 2 and a
persistently failing LLM, the triggering call fails and persists count 3,
and the immediately following User-role call attempts compaction again
(it makes one generation call, where the claim demands none). -/
theorem C4_counterexample :
    (update_summary llmFail 7
        (update_summary llmFail 5 storeNearThreshold "u" "a" "User").store
        "u" "b" "User").llmCalls = 1 ∧
    ¬ (update_summary llmFail 7
        (update_summary llmFail 5 storeNearThreshold "u" "a" "User").store
        "u" "b" "User").llmCalls = 0 := by
  decide

/-- C4 (amended): after a compaction attempt fails, the persisted
`unsummarized_count` keeps its incremented value, which is at or above
the threshold, so the very next `update_summary` call for that user
(whatever its message, role, clock or LLM oracle) attempts compaction
again — it makes exactly one generation call. Compaction is re-attempted
on every subsequent call until one succeeds, not deferred by another
threshold's worth of turns. -/
theorem helper_load_record_some (store : Store) (uid : String) (r : Rec)
    (h : store uid = some r) : load_record store uid = r := by
  unfold load_record
  rw [h]

theorem helper_store_set_self (store : Store) (uid : String) (r : Rec) :
    store_set store uid r uid = some r := by
  unfold store_set
  simp

theorem helper_update_summary_store (llm : String → Except String String) (now : Nat)
    (store : Store) (uid msg role : String) :
    (update_summary llm now store uid msg role).store uid
      = some (summary_commit llm now (load_record store uid) msg role).written := by
  unfold update_summary
  exact helper_store_set_self store uid _

theorem helper_update_summary_llmCalls (llm : String → Except String String) (now : Nat)
    (store : Store) (uid msg role : String) :
    (update_summary llm now store uid msg role).llmCalls
      = (summary_commit llm now (load_record store uid) msg role).llmCalls := rfl

theorem helper_summary_commit_error (llm : String → Except String String) (now : Nat)
    (record : Rec) (msg role e : String)
    (hth : (if role = "User" then record.unsummarized_count + 1 else record.unsummarized_count)
        ≥ UPDATE_THRESHOLD)
    (herr : llm (summary_prompt record.summary
        (record.buffer ++ (role ++ ": " ++ msg ++ "\n"))) = Except.error e) :
    summary_commit llm now record msg role =
      { written := { summary := record.summary,
                     unsummarized_count :=
                       if role = "User" then record.unsummarized_count + 1
                       else record.unsummarized_count,
                     buffer := record.buffer ++ (role ++ ": " ++ msg ++ "\n"),
                     last_updated := now },
        ret := record.summary, llmCalls := 1 } := by
  unfold summary_commit
  simp only [if_pos hth]
  rw [herr]

theorem helper_summary_commit_calls_at_threshold (llm : String → Except String String)
    (now : Nat) (record : Rec) (msg role : String)
    (hth : (if role = "User" then record.unsummarized_count + 1 else record.unsummarized_count)
        ≥ UPDATE_THRESHOLD) :
    (summary_commit llm now record msg role).llmCalls = 1 := by
  unfold summary_commit
  simp only [if_pos hth]
  cases llm (summary_prompt record.summary
      (record.buffer ++ (role ++ ": " ++ msg ++ "\n"))) with
  | ok s => rfl
  | error e => rfl

theorem C4_amended_retry_on_next_call
    (llm llm2 : String → Except String String) (now now2 : Nat) (store : Store)
    (user_id m1 m2 role2 e : String) (r : Rec)
    (hrec : store user_id = some r)
    (hth : r.unsummarized_count + 1 ≥ UPDATE_THRESHOLD)
    (herr : llm (summary_prompt r.summary
        (r.buffer ++ ("User" ++ ": " ++ m1 ++ "\n"))) = Except.error e) :
    ((update_summary llm now store user_id m1 "User").store user_id).map
        Rec.unsummarized_count = some (r.unsummarized_count + 1) ∧
    (update_summary llm2 now2 (update_summary llm now store user_id m1 "User").store
        user_id m2 role2).llmCalls = 1 := by
  have hth1 : (if ("User" : String) = "User" then r.unsummarized_count + 1
      else r.unsummarized_count) ≥ UPDATE_THRESHOLD := by
    simpa using hth
  have hcommit1 := helper_summary_commit_error llm now r m1 "User" e hth1 herr
  have hstore1 : (update_summary llm now store user_id m1 "User").store user_id
      = some { summary := r.summary, unsummarized_count := r.unsummarized_count + 1,
               buffer := r.buffer ++ ("User" ++ ": " ++ m1 ++ "\n"), last_updated := now } := by
    rw [helper_update_summary_store, helper_load_record_some store user_id r hrec, hcommit1]
    simp
  refine ⟨?_, ?_⟩
  case _ =>
    rw [hstore1]
    rfl
  case _ =>
    rw [helper_update_summary_llmCalls,
        helper_load_record_some _ _ _ hstore1]
    apply helper_summary_commit_calls_at_threshold
    split
    case _ =>
      show r.unsummarized_count + 1 + 1 ≥ UPDATE_THRESHOLD
      omega
    case _ =>
      show r.unsummarized_count + 1 ≥ UPDATE_THRESHOLD
      exact hth

/-- Witness for the amended C4 at a concrete input. -/
theorem C4_amended_retry_witness :
    ((update_summary llmFail 5 storeNearThreshold "u" "a" "User").store "u").map
        Rec.unsummarized_count = some 3 ∧
    (update_summary llmFail 7 (update_summary llmFail 5 storeNearThreshold "u" "a" "User").store
        "u" "b" "User").llmCalls = 1 := by
  have h := C4_amended_retry_on_next_call llmFail llmFail 5 7 storeNearThreshold "u" "a" "b"
    "User" "boom"
    { summary := "S", unsummarized_count := 2, buffer := "User: x\n", last_updated := 0 }
    (by decide) (by decide) rfl
  simpa using h

/-! ## Concurrency: unsynchronized read-modify-write of `update_summary`

`update_summary` performs `find_one` and later `update_one` with no
per-user lock, transaction or compare-and-swap; under concurrent
delivery the load of one call can interleave before the store of
another.  `raceStore` is the final collection state of the interleaving
load(A); load(B); write(A); write(B) of two User appends for the same
user, built from exactly the load (`load_record`) and commit
(`summary_commit` + `store_set`) phases that `update_summary` is defined
from; `seqStore` is the state after the same two calls run serially. -/

/-- Interleaved execution of `update_summary emptyStore "u" "a" "User"`
and `update_summary _ "u" "b" "User"`: both calls `find_one` before
either `update_one` lands. -/
def raceStore : Store :=
  let rA := load_record emptyStore "u"
  let rB := load_record emptyStore "u"
  let cA := summary_commit llmOk 1 rA "a" "User"
  let store1 := store_set emptyStore "u" cA.written
  let cB := summary_commit llmOk 2 rB "b" "User"
  store_set store1 "u" cB.written

/-- The same two calls run one after the other. -/
def seqStore : Store :=
  (update_summary llmOk 2 (update_summary llmOk 1 emptyStore "u" "a" "User").store
      "u" "b" "User").store

/-- C5: the unsynchronized load-mutate-persist of `update_summary` admits
a lost update.  In the interleaving where both calls read before either
writes, the final buffer is `"User: b\n"`: the `"User: a\n"` append has
vanished (it is not even a substring), whereas the serialized execution
keeps both turns.  The source provides no per-user serialization, so the
claimed property fails. -/
theorem C5_lost_update_interleaving :
    (raceStore "u").map Rec.buffer = some "User: b\n" ∧
    hasSubStr "User: a\n" "User: b\n" = false ∧
    (seqStore "u").map Rec.buffer = some ("User: a\n" ++ "User: b\n") := by
  decide

/-! ## Rate-limiter claims -/

/-- Shared helper: while every stored and arriving timestamp lies in one
3600-second window and capacity remains, every call is admitted and the
stored list is exactly the accumulated arrivals. -/
theorem rl_run_admits_within_window (limit T : Nat) :
    ∀ (times timestamps : List Nat),
    (∀ t ∈ times, T ≤ t ∧ t < T + 3600) →
    (∀ t ∈ timestamps, T ≤ t ∧ t < T + 3600) →
    timestamps.length + times.length ≤ limit →
    rl_run limit times timestamps = (List.replicate times.length false, timestamps ++ times) := by
  intro times
  induction times with
  | nil =>
    intro timestamps _ _ _
    simp [rl_run]
  | cons t rest ih =>
    intro timestamps htimes hts hlen
    have ht0 : T ≤ t ∧ t < T + 3600 := htimes t (List.mem_cons_self t rest)
    have hrest : ∀ x ∈ rest, T ≤ x ∧ x < T + 3600 := by
      intro x hx
      exact htimes x (List.mem_cons_of_mem t hx)
    have hkeep : timestamps.filter (fun x => decide (t - x < 3600)) = timestamps := by
      apply List.filter_eq_self.mpr
      intro a ha
      have hA := hts a ha
      simp only [decide_eq_true_eq]
      omega
    have hlt : timestamps.length < limit := by
      simp only [List.length_cons] at hlen
      omega
    have hts2 : ∀ x ∈ timestamps ++ [t], T ≤ x ∧ x < T + 3600 := by
      intro x hx
      rcases List.mem_append.mp hx with h | h
      case _ => exact hts x h
      case _ =>
        have hxt : x = t := by simpa using h
        rw [hxt]
        exact ht0
    have hlen2 : (timestamps ++ [t]).length + rest.length ≤ limit := by
      simp only [List.length_append, List.length_cons, List.length_nil] at hlen ⊢
      omega
    have ih2 := ih (timestamps ++ [t]) hrest hts2 hlen2
    unfold rl_run is_rate_limited
    simp only [hkeep]
    rw [if_neg (by omega)]
    simp only [ih2]
    simp [List.replicate_succ]

/-- C6: starting from no recorded timestamps with limit `N > 0`, the `N`
admission checks at times inside one 3600-second window are all admitted
and recorded; the next check inside the same window is rejected with the
stored sequence unchanged; and a check made after the window has passed
every recorded timestamp is admitted again. -/
theorem C6_sliding_window (N T : Nat) (times : List Nat) (t_rej t_ok : Nat)
    (hN : 0 < N) (hlen : times.length = N)
    (hw : ∀ t ∈ times, T ≤ t ∧ t < T + 3600)
    (hrejT : T ≤ t_rej) (hrej : t_rej < T + 3600)
    (hok : ∀ t ∈ times, t + 3600 ≤ t_ok) :
    rl_run N times [] = (List.replicate N false, times) ∧
    is_rate_limited N t_rej times = (true, times) ∧
    (is_rate_limited N t_ok times).1 = false := by
  refine ⟨?_, ?_, ?_⟩
  case _ =>
    have h := rl_run_admits_within_window N T times [] hw (by simp) (by simp [hlen])
    simpa [hlen] using h
  case _ =>
    have hkeep : times.filter (fun x => decide (t_rej - x < 3600)) = times := by
      apply List.filter_eq_self.mpr
      intro a ha
      have hA := hw a ha
      simp only [decide_eq_true_eq]
      omega
    unfold is_rate_limited
    simp only [hkeep]
    rw [if_pos (by omega)]
  case _ =>
    have hdrop : times.filter (fun x => decide (t_ok - x < 3600)) = [] := by
      rw [List.filter_eq_nil_iff]
      intro a ha
      have hA := hok a ha
      simp only [decide_eq_true_eq]
      omega
    unfold is_rate_limited
    simp only [hdrop]
    rw [if_neg (by simp; omega)]

/-- Witness for C6 at limit 2 and concrete times. -/
theorem C6_sliding_window_witness :
    rl_run 2 [1000, 2000] [] = (List.replicate 2 false, [1000, 2000]) ∧
    is_rate_limited 2 3000 [1000, 2000] = (true, [1000, 2000]) ∧
    (is_rate_limited 2 5600 [1000, 2000]).1 = false :=
  C6_sliding_window 2 1000 [1000, 2000] 3000 5600 (by decide) (by decide)
    (by decide) (by decide) (by decide) (by decide)

/-- Shared helper: one `is_rate_limited` call keeps the stored list at or
below the limit. -/
theorem rl_step_length_le (limit t : Nat) (timestamps : List Nat)
    (h : timestamps.length ≤ limit) :
    ((is_rate_limited limit t timestamps).2).length ≤ limit := by
  unfold is_rate_limited
  have hf : (timestamps.filter (fun x => decide (t - x < 3600))).length ≤ timestamps.length :=
    List.length_filter_le _ _
  by_cases hc : (timestamps.filter (fun x => decide (t - x < 3600))).length ≥ limit
  case pos =>
    rw [if_pos hc]
    show (timestamps.filter (fun x => decide (t - x < 3600))).length ≤ limit
    omega
  case neg =>
    rw [if_neg hc]
    show (timestamps.filter (fun x => decide (t - x < 3600)) ++ [t]).length ≤ limit
    simp only [List.length_append, List.length_cons, List.length_nil]
    omega

/-- C10: after any sequence of `is_rate_limited` calls starting from an
empty per-user list, the stored timestamp list never exceeds
`DEFAULT_RATE_LIMIT_PER_HOUR` entries: a timestamp is appended only when
the post-eviction length is strictly below the limit. -/
theorem C10_stored_list_bounded (times : List Nat) :
    ((rl_run DEFAULT_RATE_LIMIT_PER_HOUR times []).2).length
      ≤ DEFAULT_RATE_LIMIT_PER_HOUR := by
  have key : ∀ (ts : List Nat) (timestamps : List Nat),
      timestamps.length ≤ DEFAULT_RATE_LIMIT_PER_HOUR →
      ((rl_run DEFAULT_RATE_LIMIT_PER_HOUR ts timestamps).2).length
        ≤ DEFAULT_RATE_LIMIT_PER_HOUR := by
    intro ts
    induction ts with
    | nil =>
      intro timestamps h
      simpa [rl_run] using h
    | cons t rest ih =>
      intro timestamps h
      unfold rl_run
      exact ih _ (rl_step_length_le DEFAULT_RATE_LIMIT_PER_HOUR t timestamps h)
  exact key times [] (by simp)

/-! ## Message-pipeline claims -/

theorem helper_subject_media_ne_llm :
    (("Media Request Detected" : String) == "LLM API Failure") = false := by decide

theorem helper_subject_llm_eq :
    (("LLM API Failure" : String) == "LLM API Failure") = true := by decide

theorem helper_subject_media_eq :
    (("Media Request Detected" : String) == "Media Request Detected") = true := by decide

/-- C7: a `None` message and a whitespace-only message both make
`process_message` return the fixed fallback string with no storage
operation, no generation call and no notification. -/
theorem C7_null_and_blank_fallback
    (llm : String → Except String String) (notify : String → String → Bool)
    (now : Nat) (store : Store) (user_id s : String)
    (hblank : pyStrip s = "") :
    process_message llm notify now store none user_id
      = { reply := Except.ok fallback_reply, store := store,
          eff := { notifications := [], llmCalls := 0, summaryCalls := 0 } } ∧
    process_message llm notify now store (some s) user_id
      = { reply := Except.ok fallback_reply, store := store,
          eff := { notifications := [], llmCalls := 0, summaryCalls := 0 } } := by
  constructor
  case _ => rfl
  case _ =>
    simp only [process_message, preprocess_message, hblank]
    simp

/-- Witness for C7 at a concrete whitespace-only input. -/
theorem C7_null_and_blank_witness :
    process_message llmOk notifyOk 0 emptyStore none "u"
      = { reply := Except.ok fallback_reply, store := emptyStore,
          eff := { notifications := [], llmCalls := 0, summaryCalls := 0 } } ∧
    process_message llmOk notifyOk 0 emptyStore (some "   ") "u"
      = { reply := Except.ok fallback_reply, store := emptyStore,
          eff := { notifications := [], llmCalls := 0, summaryCalls := 0 } } :=
  C7_null_and_blank_fallback llmOk notifyOk 0 emptyStore "u" "   " (by decide)

/-- C8: when the message survives preprocessing, a failure of the
reply-generation call produces exactly one notification with subject
"LLM API Failure" — its body is the literal error template embedding the
user id and the full generation prompt — and the same failure is
re-raised to the caller; when reply generation succeeds,
`process_message` returns that reply normally. -/
theorem C8_reply_failure_notify_then_raise
    (llm : String → Except String String) (notify : String → String → Bool)
    (now : Nat) (store : Store) (text user_id : String)
    (hne : pyStrip text ≠ "") :
    (∀ e, llm (reply_prompt (update_summary llm now store user_id (pyStrip text) "User").ret
          (pyStrip text)) = Except.error e →
        (process_message llm notify now store (some text) user_id).reply = Except.error e ∧
        ((process_message llm notify now store (some text) user_id).eff.notifications.filter
            (fun n => n.1 == "LLM API Failure")).map (fun n => (n.1, n.2.1))
          = [("LLM API Failure",
              "Error for user " ++ user_id ++ " with prompt: "
                ++ reply_prompt (update_summary llm now store user_id (pyStrip text) "User").ret
                    (pyStrip text)
                ++ "\nError: " ++ e)]) ∧
    (∀ resp, llm (reply_prompt (update_summary llm now store user_id (pyStrip text) "User").ret
          (pyStrip text)) = Except.ok resp →
        (process_message llm notify now store (some text) user_id).reply
          = Except.ok resp) := by
  constructor
  case _ =>
    intro e he
    simp only [process_message, preprocess_message, if_neg hne, he]
    by_cases hm : check_media_request (pyStrip text)
    case pos =>
      simp [hm, List.filter_cons, helper_subject_media_ne_llm, helper_subject_llm_eq]
    case neg =>
      simp [hm, List.filter_cons, helper_subject_llm_eq]
  case _ =>
    intro resp hr
    simp only [process_message, preprocess_message, if_neg hne, hr]

/-- Witness for C8: with a failing LLM the failure is notified then
re-raised, and with a succeeding LLM the reply is returned. -/
theorem C8_reply_failure_witness :
    ((process_message llmFail notifyOk 0 emptyStore (some "hello") "u").reply
        = Except.error "boom" ∧
      ((process_message llmFail notifyOk 0 emptyStore (some "hello") "u").eff.notifications.filter
          (fun n => n.1 == "LLM API Failure")).map (fun n => (n.1, n.2.1))
        = [("LLM API Failure",
            "Error for user " ++ "u" ++ " with prompt: "
              ++ reply_prompt (update_summary llmFail 0 emptyStore "u" (pyStrip "hello") "User").ret
                  (pyStrip "hello")
              ++ "\nError: " ++ "boom")]) ∧
    (process_message llmOk notifyOk 0 emptyStore (some "hello") "u").reply
      = Except.ok "S-NEW" := by
  constructor
  case _ =>
    exact (C8_reply_failure_notify_then_raise llmFail notifyOk 0 emptyStore "hello" "u"
      (by decide)).1 "boom" rfl
  case _ =>
    exact (C8_reply_failure_notify_then_raise llmOk notifyOk 0 emptyStore "hello" "u"
      (by decide)).2 "S-NEW" rfl

/-- C9: a message that survives preprocessing and matches a media
keyword fires exactly one notification with subject
"Media Request Detected", and the notifier's outcome (success or
failure, for any two notifier oracles) changes neither the reply
(success or propagated failure alike), nor the resulting store, nor
which notifications are attempted. -/
theorem C9_media_alert_swallowed
    (llm : String → Except String String) (notify notify2 : String → String → Bool)
    (now : Nat) (store : Store) (text user_id : String)
    (hne : pyStrip text ≠ "")
    (hm : check_media_request (pyStrip text) = true) :
    ((process_message llm notify now store (some text) user_id).eff.notifications.filter
        (fun n => n.1 == "Media Request Detected")).map (fun n => (n.1, n.2.1))
      = [("Media Request Detected",
          "User " ++ user_id ++ " requested media: " ++ pyStrip text)] ∧
    (process_message llm notify now store (some text) user_id).reply
      = (process_message llm notify2 now store (some text) user_id).reply ∧
    (process_message llm notify now store (some text) user_id).store
      = (process_message llm notify2 now store (some text) user_id).store ∧
    (process_message llm notify now store (some text) user_id).eff.notifications.map
        (fun n => (n.1, n.2.1))
      = (process_message llm notify2 now store (some text) user_id).eff.notifications.map
        (fun n => (n.1, n.2.1)) := by
  refine ⟨?_, ?_, ?_, ?_⟩
  case _ =>
    simp only [process_message, preprocess_message, if_neg hne, hm]
    cases hllm : llm (reply_prompt
        (update_summary llm now store user_id (pyStrip text) "User").ret (pyStrip text)) with
    | ok resp =>
      simp [List.filter_cons, helper_subject_media_eq]
    | error e =>
      simp [List.filter_cons, helper_subject_media_eq, helper_subject_media_ne_llm,
        (by decide : (("LLM API Failure" : String) == "Media Request Detected") = false)]
  case _ =>
    simp only [process_message, preprocess_message, if_neg hne, hm]
    cases hllm : llm (reply_prompt
        (update_summary llm now store user_id (pyStrip text) "User").ret (pyStrip text)) with
    | ok resp => simp
    | error e => simp
  case _ =>
    simp only [process_message, preprocess_message, if_neg hne, hm]
    cases hllm : llm (reply_prompt
        (update_summary llm now store user_id (pyStrip text) "User").ret (pyStrip text)) with
    | ok resp => simp
    | error e => simp
  case _ =>
    simp only [process_message, preprocess_message, if_neg hne, hm]
    cases hllm : llm (reply_prompt
        (update_summary llm now store user_id (pyStrip text) "User").ret (pyStrip text)) with
    | ok resp => simp
    | error e => simp

/-- Witness for C9 at the concrete message "send me a photo" with a
succeeding notifier and a failing one. -/
theorem C9_media_alert_witness :
    ((process_message llmOk notifyOk 0 emptyStore (some "send me a photo") "u").eff.notifications.filter
        (fun n => n.1 == "Media Request Detected")).map (fun n => (n.1, n.2.1))
      = [("Media Request Detected",
          "User " ++ "u" ++ " requested media: " ++ pyStrip "send me a photo")] ∧
    (process_message llmOk notifyOk 0 emptyStore (some "send me a photo") "u").reply
      = (process_message llmOk notifyFail 0 emptyStore (some "send me a photo") "u").reply ∧
    (process_message llmOk notifyOk 0 emptyStore (some "send me a photo") "u").store
      = (process_message llmOk notifyFail 0 emptyStore (some "send me a photo") "u").store ∧
    (process_message llmOk notifyOk 0 emptyStore (some "send me a photo") "u").eff.notifications.map
        (fun n => (n.1, n.2.1))
      = (process_message llmOk notifyFail 0 emptyStore (some "send me a photo") "u").eff.notifications.map
        (fun n => (n.1, n.2.1)) :=
  C9_media_alert_swallowed llmOk notifyOk notifyFail 0 emptyStore "send me a photo" "u"
    (by decide) (by decide)
